import Mathlib

/-
  Verification of `src/stock-producer/producer.py` against its design spec.

  Shallow embedding conventions:
  * A raw record from the external source is opaque: a type parameter `α`.
  * The external source is a function `Nat → Resp α` giving, for each page
    number, either a successful page of records or a request failure
    (network error, timeout, malformed response — all of which the Python
    code catches with `except Exception` and treats alike).
  * The `while True` pagination loop is embedded with a fuel parameter;
    every claim is stated with enough fuel for the loop to reach its
    terminal condition, mirroring the actual runs of the code.
  * Kafka is modelled by a per-call outcome (`SendOutcome`): delivery
    confirmation with partition/offset, or an error (KafkaError / timeout).
  * Python dicts that the code builds (request params, the published
    message) are embedded as structures / association lists with the same
    keys and values.
-/

namespace StockProducer

/-- Outcome of one HTTP page request as seen by `get_all_stock_price_data`:
either the parsed `item` list found under response→body→items→item
(absent path yields the empty list), or an exception
(network/timeout/HTTP status/parse), which the code catches. -/
inductive Resp (α : Type) where
  | error : Resp α
  | page : List α → Resp α
deriving DecidableEq

/-- The query-parameter dict built for each page request
(`params` in `get_all_stock_price_data`). `numOfRows` and `pageNo` are
kept as numbers; the code stringifies them at the HTTP boundary, which
the spec places out of scope. -/
structure PageParams where
  serviceKey : String
  resultType : String
  numOfRows : Nat
  pageNo : Nat
  basDt : String
deriving Repr, DecidableEq

/-- The `while True:` pagination loop of `get_all_stock_price_data`.
Returns the collected records (`collected_data`) together with the list
of page requests issued, in order. On a request error or an empty
`item` list the loop breaks; on a non-empty page it extends
`collected_data` and increments `page_no`. -/
def fetchLoop (apiKey basDt : String) (numRows : Nat) (source : Nat → Resp α) :
    Nat → Nat → List α → List α × List PageParams
  | 0, _, acc => (acc, [])
  | fuel + 1, page_no, acc =>
    let p : PageParams := ⟨apiKey, "json", numRows, page_no, basDt⟩
    match source page_no with
    | Resp.error => (acc, [p])
    | Resp.page [] => (acc, [p])
    | Resp.page (x :: xs) =>
      let r := fetchLoop apiKey basDt numRows source fuel (page_no + 1) (acc ++ (x :: xs))
      (r.1, p :: r.2)

/-- `get_all_stock_price_data`: returns `[]` immediately when the API key
is unset, otherwise runs the pagination loop from `page_no = 1` with
`num_of_rows = 100` and the hard-coded `basDt = '20250407'`. -/
def get_all_stock_price_data (apiKey : String) (source : Nat → Resp α) (fuel : Nat) :
    List α × List PageParams :=
  if apiKey = "" then ([], [])
  else fetchLoop apiKey "20250407" 100 source fuel 1 []

theorem fetchLoop_step_error (apiKey basDt : String) (numRows : Nat)
    (source : Nat → Resp α) (f j : Nat) (acc : List α)
    (h : source j = Resp.error) :
    fetchLoop apiKey basDt numRows source (f + 1) j acc =
      (acc, [⟨apiKey, "json", numRows, j, basDt⟩]) := by
  simp [fetchLoop, h]

theorem fetchLoop_step_empty (apiKey basDt : String) (numRows : Nat)
    (source : Nat → Resp α) (f j : Nat) (acc : List α)
    (h : source j = Resp.page []) :
    fetchLoop apiKey basDt numRows source (f + 1) j acc =
      (acc, [⟨apiKey, "json", numRows, j, basDt⟩]) := by
  simp [fetchLoop, h]

theorem fetchLoop_step_cons (apiKey basDt : String) (numRows : Nat)
    (source : Nat → Resp α) (f j : Nat) (acc : List α) (x : α) (xs : List α)
    (h : source j = Resp.page (x :: xs)) :
    fetchLoop apiKey basDt numRows source (f + 1) j acc =
      ((fetchLoop apiKey basDt numRows source f (j + 1) (acc ++ (x :: xs))).1,
       ⟨apiKey, "json", numRows, j, basDt⟩ ::
         (fetchLoop apiKey basDt numRows source f (j + 1) (acc ++ (x :: xs))).2) := by
  simp [fetchLoop, h]

/-- If the source serves the non-empty pages `ps` starting at page `j` and
then terminates (error or empty page) at page `j + ps.length`, the loop
returns `acc` extended by the concatenation of `ps` and issues exactly
`ps.length + 1` requests. -/
theorem fetchLoop_run (apiKey basDt : String) (numRows : Nat)
    (source : Nat → Resp α) (ps : List (List α)) :
    ∀ (j : Nat) (acc : List α) (fuel : Nat),
    (∀ p ∈ ps, p ≠ []) →
    (∀ i, (hi : i < ps.length) → source (j + i) = Resp.page (ps[i])) →
    (source (j + ps.length) = Resp.error ∨ source (j + ps.length) = Resp.page []) →
    ps.length + 1 ≤ fuel →
    (fetchLoop apiKey basDt numRows source fuel j acc).1 = acc ++ ps.flatten ∧
    (fetchLoop apiKey basDt numRows source fuel j acc).2.length = ps.length + 1 := by
  induction ps with
  | nil =>
    intro j acc fuel _ _ hend hfuel
    obtain ⟨f, rfl⟩ : ∃ f, fuel = f + 1 := by
      cases fuel with
      | zero => omega
      | succ f => exact ⟨f, rfl⟩
    simp only [List.length_nil, Nat.add_zero] at hend
    cases hend with
    | inl h => rw [fetchLoop_step_error apiKey basDt numRows source f j acc h]; simp
    | inr h => rw [fetchLoop_step_empty apiKey basDt numRows source f j acc h]; simp
  | cons p ps ih =>
    intro j acc fuel hne hsrc hend hfuel
    obtain ⟨f, rfl⟩ : ∃ f, fuel = f + 1 := by
      cases fuel with
      | zero => simp at hfuel
      | succ f => exact ⟨f, rfl⟩
    have hp : source j = Resp.page p := by
      have := hsrc 0 (by simp)
      simpa using this
    obtain ⟨x, xs, rfl⟩ : ∃ x xs, p = x :: xs := by
      cases p with
      | nil => exact absurd rfl (hne [] (by simp))
      | cons x xs => exact ⟨x, xs, rfl⟩
    have hih := ih (j + 1) (acc ++ (x :: xs)) f
      (fun q hq => hne q (List.mem_cons_of_mem _ hq))
      (fun i hi => by
        have h1 := hsrc (i + 1) (by simpa using Nat.succ_lt_succ hi)
        rw [show j + 1 + i = j + (i + 1) from by omega]
        simpa using h1)
      (by
        rw [show j + 1 + ps.length = j + (ps.length + 1) from by omega]
        simpa using hend)
      (by
        have h2 : ps.length + 1 + 1 ≤ f + 1 := by simpa using hfuel
        omega)
    rw [fetchLoop_step_cons apiKey basDt numRows source f j acc x xs hp]
    constructor
    · rw [hih.1]; simp
    · simp [hih.2]

/-- Every request issued by the loop carries the same `serviceKey`,
`resultType`, `numOfRows` and `basDt`, and the `i`-th request (0-based)
has page number `j + i`, for any source and any fuel. -/
theorem fetchLoop_params (apiKey basDt : String) (numRows : Nat)
    (source : Nat → Resp α) :
    ∀ (fuel j : Nat) (acc : List α) (i : Nat),
    (h : i < (fetchLoop apiKey basDt numRows source fuel j acc).2.length) →
    (fetchLoop apiKey basDt numRows source fuel j acc).2[i] =
      ⟨apiKey, "json", numRows, j + i, basDt⟩ := by
  intro fuel
  induction fuel with
  | zero => intro j acc i h; simp [fetchLoop] at h
  | succ f ih =>
    intro j acc i h
    cases hs : source j with
    | error =>
      simp only [fetchLoop_step_error apiKey basDt numRows source f j acc hs] at h ⊢
      simp only [List.length_singleton] at h
      obtain rfl : i = 0 := by omega
      simp
    | page items =>
      cases items with
      | nil =>
        simp only [fetchLoop_step_empty apiKey basDt numRows source f j acc hs] at h ⊢
        simp only [List.length_singleton] at h
        obtain rfl : i = 0 := by omega
        simp
      | cons x xs =>
        simp only [fetchLoop_step_cons apiKey basDt numRows source f j acc x xs hs] at h ⊢
        cases i with
        | zero => simp
        | succ i =>
          have hlt : i < (fetchLoop apiKey basDt numRows source f (j + 1) (acc ++ (x :: xs))).2.length := by
            simp only [List.length_cons] at h
            omega
          have hv := ih (j + 1) (acc ++ (x :: xs)) i hlt
          simp only [List.getElem_cons_succ]
          rw [hv]
          congr 1
          omega

/-- Claim C1: for a source returning `n` non-empty pages followed by one
empty page (and no request error), `get_all_stock_price_data` issues
exactly `n + 1` page requests and returns the concatenation of the `n`
pages' record lists in request order; the empty page is the normal
success terminal condition, not an error. -/
theorem C1_fetchAll_pages_then_empty (apiKey : String) (source : Nat → Resp α)
    (ps : List (List α)) (fuel : Nat)
    (hkey : apiKey ≠ "")
    (hne : ∀ p ∈ ps, p ≠ [])
    (hsrc : ∀ i, (hi : i < ps.length) → source (1 + i) = Resp.page (ps[i]))
    (hend : source (1 + ps.length) = Resp.page [])
    (hfuel : ps.length + 1 ≤ fuel) :
    (get_all_stock_price_data apiKey source fuel).1 = ps.flatten ∧
    (get_all_stock_price_data apiKey source fuel).2.length = ps.length + 1 := by
  have h := fetchLoop_run apiKey "20250407" 100 source ps 1 [] fuel hne hsrc
    (Or.inr hend) hfuel
  simp only [get_all_stock_price_data, if_neg hkey]
  simpa using h

theorem C1_fetchAll_pages_then_empty_witness :
    (get_all_stock_price_data "key" (fun k => if k = 1 then Resp.page [10, 11] else
      if k = 2 then Resp.page [12] else Resp.page []) 5).1 = [10, 11, 12] ∧
    (get_all_stock_price_data "key" (fun k => if k = 1 then Resp.page [10, 11] else
      if k = 2 then Resp.page [12] else Resp.page []) 5).2.length = 3 := by
  have h := C1_fetchAll_pages_then_empty "key"
    (fun k => if k = 1 then Resp.page [10, 11] else
      if k = 2 then Resp.page [12] else Resp.page [])
    [[10, 11], [12]] 5
    (by decide)
    (by decide)
    (by decide)
    (by decide)
    (by decide)
  simpa using h

/-- Claim C2: if the request for page `k` (1 ≤ k) fails after the `k - 1`
non-empty pages `ps` were served, `get_all_stock_price_data` stops at
that request — exactly `k` requests in total, no further ones — and
returns the concatenation of pages `1 .. k-1` (empty when `k = 1`);
the embedding is a total function, so no exception reaches the caller. -/
theorem C2_fetchAll_error_truncates (apiKey : String) (source : Nat → Resp α)
    (ps : List (List α)) (k fuel : Nat)
    (hkey : apiKey ≠ "")
    (hk : k = ps.length + 1)
    (hne : ∀ p ∈ ps, p ≠ [])
    (hsrc : ∀ i, (hi : i < ps.length) → source (1 + i) = Resp.page (ps[i]))
    (herr : source (1 + ps.length) = Resp.error)
    (hfuel : k ≤ fuel) :
    (get_all_stock_price_data apiKey source fuel).1 = ps.flatten ∧
    (get_all_stock_price_data apiKey source fuel).2.length = k := by
  subst hk
  have h := fetchLoop_run apiKey "20250407" 100 source ps 1 [] fuel hne hsrc
    (Or.inl herr) hfuel
  simp only [get_all_stock_price_data, if_neg hkey]
  simpa using h

theorem C2_fetchAll_error_truncates_witness :
    (get_all_stock_price_data "key" (fun k => if k = 1 then Resp.page [10, 11] else
      Resp.error) 5).1 = [10, 11] ∧
    (get_all_stock_price_data "key" (fun k => if k = 1 then Resp.page [10, 11] else
      Resp.error) 5).2.length = 2 := by
  have h := C2_fetchAll_error_truncates "key"
    (fun k => if k = 1 then Resp.page [10, 11] else Resp.error)
    [[10, 11]] 2 5
    (by decide)
    (by decide)
    (by decide)
    (by decide)
    (by decide)
    (by decide)
  simpa using h

/-- Claim C9: within one fetch cycle the page requests satisfy the
PageRequest invariant — the first request has page number 1, each
subsequent request's page number is exactly one greater than the
previous one, and every request of the cycle uses the same page size
100. -/
theorem C9_page_request_invariant (apiKey : String) (source : Nat → Resp α)
    (fuel : Nat) (hkey : apiKey ≠ "") :
    (∀ h0 : 0 < (get_all_stock_price_data apiKey source fuel).2.length,
      ((get_all_stock_price_data apiKey source fuel).2[0]).pageNo = 1) ∧
    (∀ i, (h : i + 1 < (get_all_stock_price_data apiKey source fuel).2.length) →
      ((get_all_stock_price_data apiKey source fuel).2[i + 1]).pageNo =
        ((get_all_stock_price_data apiKey source fuel).2[i]).pageNo + 1) ∧
    (∀ i, (h : i < (get_all_stock_price_data apiKey source fuel).2.length) →
      ((get_all_stock_price_data apiKey source fuel).2[i]).numOfRows = 100) := by
  have hq : (get_all_stock_price_data apiKey source fuel).2 =
      (fetchLoop apiKey "20250407" 100 source fuel 1 []).2 := by
    simp [get_all_stock_price_data, if_neg hkey]
  refine ⟨?_, ?_, ?_⟩
  · intro h0
    have := fetchLoop_params apiKey "20250407" 100 source fuel 1 [] 0 (by rw [hq] at h0; exact h0)
    simp only [hq]
    rw [this]
  · intro i h
    have h1 := fetchLoop_params apiKey "20250407" 100 source fuel 1 [] (i + 1)
      (by rw [hq] at h; exact h)
    have h2 := fetchLoop_params apiKey "20250407" 100 source fuel 1 [] i
      (by rw [hq] at h; omega)
    simp only [hq]
    rw [h1, h2]
    simp
    omega
  · intro i h
    have h1 := fetchLoop_params apiKey "20250407" 100 source fuel 1 [] i
      (by rw [hq] at h; exact h)
    simp only [hq]
    rw [h1]

theorem C9_page_request_invariant_witness :
    (∀ h0 : 0 < (get_all_stock_price_data "key"
        (fun k => if k = 1 then Resp.page [10] else Resp.page []) 5).2.length,
      ((get_all_stock_price_data "key"
        (fun k => if k = 1 then Resp.page [10] else Resp.page []) 5).2[0]).pageNo = 1) ∧
    (∀ i, (h : i + 1 < (get_all_stock_price_data "key"
        (fun k => if k = 1 then Resp.page [10] else Resp.page []) 5).2.length) →
      ((get_all_stock_price_data "key"
        (fun k => if k = 1 then Resp.page [10] else Resp.page []) 5).2[i + 1]).pageNo =
        ((get_all_stock_price_data "key"
        (fun k => if k = 1 then Resp.page [10] else Resp.page []) 5).2[i]).pageNo + 1) ∧
    (∀ i, (h : i < (get_all_stock_price_data "key"
        (fun k => if k = 1 then Resp.page [10] else Resp.page []) 5).2.length) →
      ((get_all_stock_price_data "key"
        (fun k => if k = 1 then Resp.page [10] else Resp.page []) 5).2[i]).numOfRows = 100) :=
  C9_page_request_invariant "key"
    (fun k => if k = 1 then Resp.page [10] else Resp.page []) 5 (by decide)

/-- A value of the message dict built in `main`: either a string field or
the raw record passed through unchanged. -/
inductive Val (α : Type) where
  | s : String → Val α
  | raw : α → Val α
deriving DecidableEq

/-- A Python dict with string keys, as an association list in insertion
order. -/
abbrev Dict (α : Type) := List (String × Val α)

/-- Outcome of one `producer.send(...).get(timeout=15)` round trip:
delivery confirmation with partition and offset, or a KafkaError /
timeout / unexpected exception. -/
inductive SendOutcome where
  | ok : Nat → Nat → SendOutcome
  | err : SendOutcome
deriving DecidableEq

/-- `send_to_kafka`: returns False without submitting anything when
`data` is falsy (the empty dict); otherwise hands exactly one message to
`producer.send` and returns True exactly when the bounded wait for the
delivery confirmation succeeds. The second component is the list of
messages submitted to the broker connection by this call. -/
def send_to_kafka (outcome : SendOutcome) (data : Dict α) : Bool × List (Dict α) :=
  if data.isEmpty then (false, [])
  else
    match outcome with
    | SendOutcome.ok _ _ => (true, [data])
    | SendOutcome.err => (false, [data])

/-- The `message` dict built in `main` for one fetched record. -/
def build_message (endpoint search_date retrieved_at : String) (item : α) : Dict α :=
  [("source", Val.s "stock_price_api"),
   ("api_endpoint", Val.s endpoint),
   ("search_date", Val.s search_date),
   ("retrieved_at", Val.s retrieved_at),
   ("data", Val.raw item)]

theorem build_message_data (endpoint search_date retrieved_at : String) (item : α) :
    (build_message endpoint search_date retrieved_at item).lookup "data" =
      some (Val.raw item) := rfl

theorem build_message_search_date (endpoint search_date retrieved_at : String) (item : α) :
    (build_message endpoint search_date retrieved_at item).lookup "search_date" =
      some (Val.s search_date) := rfl

theorem build_message_api_endpoint (endpoint search_date retrieved_at : String) (item : α) :
    (build_message endpoint search_date retrieved_at item).lookup "api_endpoint" =
      some (Val.s endpoint) := rfl

/-- The `for item in all_data:` loop of `main`: one `send_to_kafka` call
per record, in order; the boolean result of each call is recorded in
the trace but never consulted — the code discards it and moves on.
`clock i` is the `datetime.now().isoformat()` timestamp captured at the
`i`-th publish. -/
def publishLoop (endpoint dateStr : String) (clock : Nat → String)
    (outcomes : Nat → SendOutcome) : Nat → List α → List (Dict α × Bool)
  | _, [] => []
  | i, item :: rest =>
    (build_message endpoint dateStr (clock i) item,
     (send_to_kafka (outcomes i) (build_message endpoint dateStr (clock i) item)).1) ::
    publishLoop endpoint dateStr clock outcomes (i + 1) rest

theorem publishLoop_length (endpoint dateStr : String) (clock : Nat → String)
    (outcomes : Nat → SendOutcome) :
    ∀ (i : Nat) (items : List α),
    (publishLoop endpoint dateStr clock outcomes i items).length = items.length := by
  intro i items
  induction items generalizing i with
  | nil => simp [publishLoop]
  | cons x rest ih => simp [publishLoop, ih]

theorem publishLoop_get (endpoint dateStr : String) (clock : Nat → String)
    (outcomes : Nat → SendOutcome) :
    ∀ (items : List α) (i k : Nat),
    (h : k < (publishLoop endpoint dateStr clock outcomes i items).length) →
    (h2 : k < items.length) →
    (publishLoop endpoint dateStr clock outcomes i items)[k] =
      (build_message endpoint dateStr (clock (i + k)) (items[k]),
       (send_to_kafka (outcomes (i + k))
         (build_message endpoint dateStr (clock (i + k)) (items[k]))).1) := by
  intro items
  induction items with
  | nil => intro i k h h2; simp at h2
  | cons x rest ih =>
    intro i k h h2
    cases k with
    | zero => simp [publishLoop]
    | succ k =>
      simp only [publishLoop, List.getElem_cons_succ]
      rw [show i + (k + 1) = i + 1 + k from by omega]
      have hh : k < (publishLoop endpoint dateStr clock outcomes (i + 1) rest).length := by
        rw [publishLoop_length]
        simp only [List.length_cons] at h2
        omega
      exact ih (i + 1) k hh (by simp only [List.length_cons] at h2; omega)

theorem publishLoop_msgs_outcome_free (endpoint dateStr : String) (clock : Nat → String)
    (o1 o2 : Nat → SendOutcome) :
    ∀ (i : Nat) (items : List α),
    (publishLoop endpoint dateStr clock o1 i items).map Prod.fst =
    (publishLoop endpoint dateStr clock o2 i items).map Prod.fst := by
  intro i items
  induction items generalizing i with
  | nil => simp [publishLoop]
  | cons x rest ih => simp [publishLoop, ih]

theorem publishLoop_mem_fields (endpoint dateStr : String) (clock : Nat → String)
    (outcomes : Nat → SendOutcome) :
    ∀ (i : Nat) (items : List α) (pr : Dict α × Bool),
    pr ∈ publishLoop endpoint dateStr clock outcomes i items →
    pr.1.lookup "search_date" = some (Val.s dateStr) ∧
    pr.1.lookup "api_endpoint" = some (Val.s endpoint) := by
  intro i items
  induction items generalizing i with
  | nil => intro pr h; simp [publishLoop] at h
  | cons x rest ih =>
    intro pr h
    simp only [publishLoop, List.mem_cons] at h
    cases h with
    | inl h => subst h; exact ⟨rfl, rfl⟩
    | inr h => exact ih (i + 1) pr h

/-- A calendar date, as `datetime.today()` provides it to `main`. -/
structure Date where
  year : Nat
  month : Nat
  day : Nat
deriving DecidableEq, Repr

/-- Python's `date.weekday()` (Monday = 0 … Sunday = 6), computed by
Zeller's congruence. -/
def pyWeekday (dt : Date) : Nat :=
  let y := if dt.month ≤ 2 then dt.year - 1 else dt.year
  let m := if dt.month ≤ 2 then dt.month + 12 else dt.month
  let K := y % 100
  let J := y / 100
  let h := (dt.day + 13 * (m + 1) / 5 + K + K / 4 + J / 4 + 5 * J) % 7
  (h + 5) % 7

/-- Zero-padded two-digit decimal, as in strftime `%m` and `%d`. -/
def pad2 (n : Nat) : String := if n < 10 then "0" ++ toString n else toString n

/-- Zero-padded four-digit decimal, as in strftime `%Y`. -/
def pad4 (n : Nat) : String :=
  if n < 10 then "000" ++ toString n
  else if n < 100 then "00" ++ toString n
  else if n < 1000 then "0" ++ toString n
  else toString n

/-- `today.strftime('%Y-%m-%d')`, the form used for `search_date`. -/
def formatDashed (dt : Date) : String :=
  pad4 dt.year ++ "-" ++ pad2 dt.month ++ "-" ++ pad2 dt.day

/-- `strftime('%Y%m%d')`, the YYYYMMDD form the spec prescribes for the
`basDt` query parameter. -/
def formatCompact (dt : Date) : String :=
  pad4 dt.year ++ pad2 dt.month ++ pad2 dt.day

/-- Observable trace of one iteration of the `while True:` loop in
`main`: the page requests issued, the (message, send-result) pairs of
the publish loop, and the interval sleeps performed. -/
structure IterTrace (α : Type) where
  requests : List PageParams
  published : List (Dict α × Bool)
  sleptSeconds : List Nat

/-- One iteration of the scheduler loop in `main`: on a weekend
(`today.weekday() >= 5`) no fetch and no publish, only the full interval
sleep; otherwise fetch all pages, publish each record, then the full
interval sleep. -/
def mainIteration (interval : Nat) (today : Date) (apiKey endpoint : String)
    (source : Nat → Resp α) (outcomes : Nat → SendOutcome) (clock : Nat → String)
    (fuel : Nat) : IterTrace α :=
  if 5 ≤ pyWeekday today then
    ⟨[], [], [interval]⟩
  else
    let r := get_all_stock_price_data apiKey source fuel
    ⟨r.2, publishLoop endpoint (formatDashed today) clock outcomes 0 r.1, [interval]⟩

theorem mainIteration_trading (interval : Nat) (today : Date) (apiKey endpoint : String)
    (source : Nat → Resp α) (outcomes : Nat → SendOutcome) (clock : Nat → String)
    (fuel : Nat) (hday : pyWeekday today < 5) :
    mainIteration interval today apiKey endpoint source outcomes clock fuel =
      ⟨(get_all_stock_price_data apiKey source fuel).2,
       publishLoop endpoint (formatDashed today) clock outcomes 0
         (get_all_stock_price_data apiKey source fuel).1,
       [interval]⟩ := by
  have h : ¬ 5 ≤ pyWeekday today := by omega
  simp [mainIteration, h]

/-- Claim C5: on a trading day, a cycle with a fetch result of size `m`
makes exactly `m` publish calls — one per record, in result order, the
`k`-th envelope's `data` field being exactly the `k`-th fetched record —
and the sequence of messages published does not depend on the per-record
send outcomes: a failed publish is not retried, the loop advances. -/
theorem C5_one_publish_per_record (interval : Nat) (today : Date)
    (apiKey endpoint : String) (source : Nat → Resp α)
    (outcomes outcomes2 : Nat → SendOutcome) (clock : Nat → String) (fuel : Nat)
    (hday : pyWeekday today < 5) :
    (mainIteration interval today apiKey endpoint source outcomes clock fuel).published.length =
      (get_all_stock_price_data apiKey source fuel).1.length ∧
    (∀ k,
      (h : k < (mainIteration interval today apiKey endpoint source outcomes clock fuel).published.length) →
      (h2 : k < (get_all_stock_price_data apiKey source fuel).1.length) →
      ((mainIteration interval today apiKey endpoint source outcomes clock fuel).published[k]).1.lookup "data" =
        some (Val.raw ((get_all_stock_price_data apiKey source fuel).1[k]))) ∧
    (mainIteration interval today apiKey endpoint source outcomes clock fuel).published.map Prod.fst =
      (mainIteration interval today apiKey endpoint source outcomes2 clock fuel).published.map Prod.fst := by
  rw [mainIteration_trading interval today apiKey endpoint source outcomes clock fuel hday,
      mainIteration_trading interval today apiKey endpoint source outcomes2 clock fuel hday]
  refine ⟨publishLoop_length endpoint (formatDashed today) clock outcomes 0 _, ?_, ?_⟩
  · intro k h h2
    rw [publishLoop_get endpoint (formatDashed today) clock outcomes
      (get_all_stock_price_data apiKey source fuel).1 0 k h h2]
    exact build_message_data endpoint (formatDashed today) (clock (0 + k)) _
  · exact publishLoop_msgs_outcome_free endpoint (formatDashed today) clock outcomes outcomes2 0 _

theorem C5_one_publish_per_record_witness :
    ((mainIteration 60 ⟨2025, 4, 8⟩ "key" "ep"
        (fun k => if k = 1 then Resp.page [7, 8] else Resp.page ([] : List Nat))
        (fun _ => SendOutcome.err) (fun _ => "T") 5).published.length =
      (get_all_stock_price_data "key"
        (fun k => if k = 1 then Resp.page [7, 8] else Resp.page ([] : List Nat)) 5).1.length) ∧
    (∀ k,
      (h : k < (mainIteration 60 ⟨2025, 4, 8⟩ "key" "ep"
        (fun k => if k = 1 then Resp.page [7, 8] else Resp.page ([] : List Nat))
        (fun _ => SendOutcome.err) (fun _ => "T") 5).published.length) →
      (h2 : k < (get_all_stock_price_data "key"
        (fun k => if k = 1 then Resp.page [7, 8] else Resp.page ([] : List Nat)) 5).1.length) →
      ((mainIteration 60 ⟨2025, 4, 8⟩ "key" "ep"
        (fun k => if k = 1 then Resp.page [7, 8] else Resp.page ([] : List Nat))
        (fun _ => SendOutcome.err) (fun _ => "T") 5).published[k]).1.lookup "data" =
        some (Val.raw ((get_all_stock_price_data "key"
        (fun k => if k = 1 then Resp.page [7, 8] else Resp.page ([] : List Nat)) 5).1[k]))) ∧
    ((mainIteration 60 ⟨2025, 4, 8⟩ "key" "ep"
        (fun k => if k = 1 then Resp.page [7, 8] else Resp.page ([] : List Nat))
        (fun _ => SendOutcome.err) (fun _ => "T") 5).published.map Prod.fst =
      (mainIteration 60 ⟨2025, 4, 8⟩ "key" "ep"
        (fun k => if k = 1 then Resp.page [7, 8] else Resp.page ([] : List Nat))
        (fun _ => SendOutcome.ok 0 0) (fun _ => "T") 5).published.map Prod.fst) :=
  C5_one_publish_per_record 60 ⟨2025, 4, 8⟩ "key" "ep"
    (fun k => if k = 1 then Resp.page [7, 8] else Resp.page ([] : List Nat))
    (fun _ => SendOutcome.err) (fun _ => SendOutcome.ok 0 0) (fun _ => "T") 5
    (by decide)

/-- Claim C6: on a non-trading day (weekday index 5 or 6) the scheduler
iteration issues zero fetch requests and zero publish calls, and sleeps
exactly one configured interval. -/
theorem C6_weekend_skips (interval : Nat) (today : Date) (apiKey endpoint : String)
    (source : Nat → Resp α) (outcomes : Nat → SendOutcome) (clock : Nat → String)
    (fuel : Nat) (hday : 5 ≤ pyWeekday today) :
    mainIteration interval today apiKey endpoint source outcomes clock fuel =
      ⟨[], [], [interval]⟩ := by
  simp [mainIteration, hday]

theorem C6_weekend_skips_witness :
    5 ≤ pyWeekday ⟨2025, 4, 12⟩ ∧
    mainIteration 60 ⟨2025, 4, 12⟩ "key" "ep"
        (fun _ => Resp.page ([7] : List Nat)) (fun _ => SendOutcome.ok 0 0)
        (fun _ => "T") 5 =
      ⟨[], [], [60]⟩ :=
  ⟨by decide,
   C6_weekend_skips 60 ⟨2025, 4, 12⟩ "key" "ep"
     (fun _ => Resp.page ([7] : List Nat)) (fun _ => SendOutcome.ok 0 0)
     (fun _ => "T") 5 (by decide)⟩

/-- Claim C10: called with falsy (empty) data, `send_to_kafka` returns
False and hands nothing to the broker connection; a send is attempted —
exactly one message submitted — precisely when the data is non-empty. -/
theorem C10_send_rejects_empty (outcome : SendOutcome) (data : Dict α) :
    (data.isEmpty = true → send_to_kafka outcome data = (false, [])) ∧
    (data.isEmpty = false → (send_to_kafka outcome data).2 = [data]) := by
  constructor
  · intro h; simp [send_to_kafka, h]
  · intro h; cases outcome <;> simp [send_to_kafka, h]

theorem C10_send_rejects_empty_witness :
    send_to_kafka SendOutcome.err ([] : Dict Nat) = (false, []) ∧
    (send_to_kafka SendOutcome.err [("data", Val.raw 3)]).2 = [[("data", Val.raw 3)]] :=
  ⟨(C10_send_rejects_empty SendOutcome.err ([] : Dict Nat)).1 rfl,
   (C10_send_rejects_empty SendOutcome.err [("data", Val.raw 3)]).2 rfl⟩

/-- Producer teardown actions executed in the `finally:` block of
`main`, with their bounded-wait timeouts. -/
inductive TAction where
  | flush : Nat → TAction
  | close : Nat → TAction
deriving DecidableEq, Repr

/-- How the scheduler loop ended: `KeyboardInterrupt` or an unhandled
exception. Both handlers only log before the `finally:` block runs. -/
inductive ExitCause where
  | interrupt : ExitCause
  | exception : ExitCause
deriving DecidableEq, Repr

/-- Per-iteration environment of the scheduler loop: the current date,
the source behaviour, the per-record send outcomes, and the
publish-time clock for that iteration. -/
structure IterEnv (α : Type) where
  today : Date
  source : Nat → Resp α
  outcomes : Nat → SendOutcome
  clock : Nat → String

/-- Observable trace of one run of `main`. -/
structure MainTrace (α : Type) where
  producerCreateAttempted : Bool
  iterations : List (IterTrace α)
  teardown : List TAction

/-- `main`: returns before creating the Kafka producer when the API key
is empty; returns before the loop when the producer cannot be created;
otherwise runs the scheduler loop — modelled over the `days` iterations
it completes before `cause` ends it — and then the `finally:` teardown,
which flushes with a 10-second bound and then closes with a 10-second
bound, whatever the exit cause was. -/
def main_model (interval : Nat) (apiKey endpoint : String) (producerOk : Bool)
    (days : List (IterEnv α)) (fuel : Nat) (cause : ExitCause) : MainTrace α :=
  if apiKey = "" then ⟨false, [], []⟩
  else if producerOk = false then ⟨true, [], []⟩
  else
    ⟨true,
     days.map (fun e =>
       mainIteration interval e.today apiKey endpoint e.source e.outcomes e.clock fuel),
     [TAction.flush 10, TAction.close 10]⟩

/-- Claim C7: whenever the producer was successfully created, every exit
of the main loop — interrupt or unhandled exception — runs teardown
exactly once: a bounded-wait flush followed by a bounded-wait close. -/
theorem C7_teardown_flush_then_close (interval : Nat) (apiKey endpoint : String)
    (days : List (IterEnv α)) (fuel : Nat) (cause : ExitCause)
    (hkey : apiKey ≠ "") :
    (main_model interval apiKey endpoint true days fuel cause).teardown =
      [TAction.flush 10, TAction.close 10] := by
  simp [main_model, hkey]

theorem C7_teardown_flush_then_close_witness :
    (main_model 60 "key" "ep" true ([] : List (IterEnv Nat)) 5 ExitCause.interrupt).teardown =
      [TAction.flush 10, TAction.close 10] :=
  C7_teardown_flush_then_close 60 "key" "ep" ([] : List (IterEnv Nat)) 5
    ExitCause.interrupt (by decide)

/-- Claim C8: with an empty API key, `main` returns before attempting to
create the broker producer and performs no iteration (no fetch, no
publish) and no teardown; if the producer cannot be created, `main`
returns without entering the scheduler loop. -/
theorem C8_startup_aborts (interval : Nat) (apiKey endpoint : String)
    (producerOk : Bool) (days : List (IterEnv α)) (fuel : Nat) (cause : ExitCause) :
    (apiKey = "" →
      main_model interval apiKey endpoint producerOk days fuel cause =
        ⟨false, [], []⟩) ∧
    (producerOk = false →
      (main_model interval apiKey endpoint producerOk days fuel cause).iterations = []) := by
  constructor
  · intro h; simp [main_model, h]
  · intro h
    subst h
    by_cases hk : apiKey = "" <;> simp [main_model, hk]

theorem C8_startup_aborts_witness :
    (main_model 60 "" "ep" true ([] : List (IterEnv Nat)) 5 ExitCause.interrupt =
      ⟨false, [], []⟩) ∧
    (main_model 60 "key" "ep" false
      [⟨⟨2025, 4, 8⟩, fun _ => Resp.page ([7] : List Nat), fun _ => SendOutcome.err,
        fun _ => "T"⟩] 5 ExitCause.interrupt).iterations = [] :=
  ⟨(C8_startup_aborts 60 "" "ep" true ([] : List (IterEnv Nat)) 5 ExitCause.interrupt).1 rfl,
   (C8_startup_aborts 60 "key" "ep" false
     [⟨⟨2025, 4, 8⟩, fun _ => Resp.page ([7] : List Nat), fun _ => SendOutcome.err,
       fun _ => "T"⟩] 5 ExitCause.interrupt).2 rfl⟩

/-- A source serving two pages of 100 records each, then empty pages —
the scenario of the spec's testable property for C3. -/
def twoPageSource : Nat → Resp Nat := fun k =>
  if k = 1 then Resp.page (List.range 100)
  else if k = 2 then Resp.page ((List.range 100).map (fun n => n + 100))
  else Resp.page []

set_option maxRecDepth 10000 in
/-- Claim C3 fails on the code: in the scenario — two pages of 100
records, then one empty page — run on the trading day 2025-04-08,
exactly 200 publish calls are made and each envelope carries the
configured endpoint name; but every envelope's `search_date` is
"2025-04-08", the date the iteration ran, while every page request asked
the source for the hard-coded reference date `basDt = "20250407"`. The
envelope's search date is not the date whose records were requested. -/
theorem C3_searchDate_not_requested_date :
    ((mainIteration 60 ⟨2025, 4, 8⟩ "key" "getStockPriceInfo" twoPageSource
        (fun _ => SendOutcome.ok 0 0) (fun _ => "T") 5).published.length = 200) ∧
    (∀ pr ∈ (mainIteration 60 ⟨2025, 4, 8⟩ "key" "getStockPriceInfo" twoPageSource
        (fun _ => SendOutcome.ok 0 0) (fun _ => "T") 5).published,
      pr.1.lookup "search_date" = some (Val.s "2025-04-08") ∧
      pr.1.lookup "api_endpoint" = some (Val.s "getStockPriceInfo")) ∧
    (∀ r ∈ (mainIteration 60 ⟨2025, 4, 8⟩ "key" "getStockPriceInfo" twoPageSource
        (fun _ => SendOutcome.ok 0 0) (fun _ => "T") 5).requests,
      r.basDt = "20250407") ∧
    ("2025-04-08" : String) ≠ "2025-04-07" := by
  have htr := mainIteration_trading 60 ⟨2025, 4, 8⟩ "key" "getStockPriceInfo" twoPageSource
    (fun _ => SendOutcome.ok 0 0) (fun _ => "T") 5 (by decide)
  rw [htr]
  refine ⟨?_, ?_, ?_, ?_⟩
  · rw [publishLoop_length]
    decide
  · intro pr hpr
    have hfields := publishLoop_mem_fields "getStockPriceInfo" (formatDashed ⟨2025, 4, 8⟩)
      (fun _ => "T") (fun _ => SendOutcome.ok 0 0) 0 _ pr hpr
    have hdate : formatDashed ⟨2025, 4, 8⟩ = "2025-04-08" := by decide
    rw [hdate] at hfields
    exact hfields
  · decide
  · decide

/-- Claim C4 fails on the code: `get_all_stock_price_data` sends the
hard-coded literal `basDt = '20250407'` with every page request, not the
date the iteration runs. In a cycle run on 2025-04-08 (a trading day)
both page requests carry basDt = "20250407", while the YYYYMMDD form of
the iteration date is "20250408". -/
theorem C4_basDt_is_hardcoded :
    (mainIteration 60 ⟨2025, 4, 8⟩ "key" "ep"
        (fun k => if k = 1 then Resp.page ([7] : List Nat) else Resp.page [])
        (fun _ => SendOutcome.ok 0 0) (fun _ => "T") 5).requests.map PageParams.basDt =
      ["20250407", "20250407"] ∧
    formatCompact ⟨2025, 4, 8⟩ = "20250408" ∧
    ("20250407" : String) ≠ "20250408" := by
  refine ⟨?_, ?_, ?_⟩ <;> decide

end StockProducer
